import Mathlib

/-!
Verification development for the ReadoutCard C-RORC DMA superpage engine.

The definitions below are a shallow embedding of src/src/Crorc/CrorcDmaChannel.cxx
(the DMA engine, superpage queue handling, firmware decoding) and of the
DummyDmaChannel in src/src/ChannelPaths.cxx.  Machine integers are modelled as
Nat with explicit masking where the code relies on 32-bit behaviour; the
hardware ready-FIFO is a list of 128 entries; MMIO side effects are recorded
in an explicit command log.  Parts of the repository that the source file
uses but whose code is not in the tree (SuperpageQueue, constants headers,
the DmaChannelBase wrappers) are modelled from the specification and marked
as such in their doc comments.
-/

deriving instance DecidableEq for Except

namespace ReadoutCard

/-- Number of entries of the card's ready FIFO ring (spec: N = READYFIFO_ENTRIES = 128). -/
def READYFIFO_ENTRIES : Nat := 128

/-- Modelled from the spec: FIFO_QUEUE_MAX is defined in the CrorcDmaChannel header,
which is not in the tree; the spec fixes FIFO_QUEUE_MAX = 128 and requires
FIFO_QUEUE_MAX to be at most READYFIFO_ENTRIES. -/
def FIFO_QUEUE_MAX : Nat := 128

/-- Modelled from the spec: the DTSW magic byte from Crorc/Constants.h (not in the
tree); scenario S4 and the source comment about status word 0x400082 fix the
byte to 0x82. -/
def DTSW : Nat := 0x82

/-- Loopback modes (ReadoutCard/ParameterTypes/LoopbackMode.h, values per spec). -/
inductive LoopbackMode
  | None
  | Internal
  | Siu
  | Diu
  | Rorc
deriving DecidableEq

/-- Modelled from the spec: LoopbackMode::isExternal (header not in tree); the
external loopbacks are the ones routed through the optical link (Siu, Diu). -/
def LoopbackMode.isExternal : LoopbackMode → Bool
  | .Siu => true
  | .Diu => true
  | _ => false

/-- Reset levels, ordered Nothing < Internal < InternalDiuSiu. -/
inductive ResetLevel
  | Nothing
  | Internal
  | InternalDiuSiu
deriving DecidableEq

/-- Reset kinds passed to resetCommand / armDdl. -/
inductive ResetKind
  | FF
  | RORC
  | DIU
  | SIU
deriving DecidableEq

/-- Hardware commands issued through the Card Ops collaborator (MMIO).  Only
pushRxFreeFifo carries data that the claims inspect; the other constructors
record that the corresponding Card Ops call was made. -/
inductive HwCmd
  | pushRxFreeFifo (pageBusAddress : Nat) (pageWords : Nat) (index : Nat)
  | initDiuVersion
  | resetCommand (kind : ResetKind)
  | armDdl (kind : ResetKind)
  | startDataReceiver
  | assertFreeFifoEmpty
  | assertLinkUp
  | siuCommand
  | diuCommand
  | startTrigger
  | stopTrigger
  | armDataGenerator
  | setLoopbackOn
  | setSiuLoopback
  | startDataGeneratorCmd
  | stopDataGeneratorCmd
  | stopDataReceiver
  | initReadoutContinuous
  | startReadoutContinuous
deriving DecidableEq

/-- True exactly for descriptor pushes into the card's free FIFO. -/
def HwCmd.isPushRxFreeFifo : HwCmd → Bool
  | .pushRxFreeFifo _ _ _ => true
  | _ => false

/-- A client superpage (ReadoutCard/Superpage.h is not in the tree; fields per
spec section 3: offset, size, received, ready). -/
structure Superpage where
  offset : Nat
  size : Nat
  received : Nat
  ready : Bool
deriving DecidableEq

/-- Superpage.isFilled, per the spec invariant: filled when received equals size. -/
def Superpage.isFilled (sp : Superpage) : Bool := sp.received == sp.size

/-- Internal wrapper around a superpage (spec section 3: SuperpageEntry). -/
structure SuperpageQueueEntry where
  superpage : Superpage
  busAddress : Nat
  maxPages : Nat
  pushedPages : Nat
deriving DecidableEq

/-- Number of pages of the entry not yet pushed to the card. -/
def SuperpageQueueEntry.getUnpushedPages (e : SuperpageQueueEntry) : Nat :=
  e.maxPages - e.pushedPages

/-- An entry is fully pushed when pushedPages equals maxPages. -/
def SuperpageQueueEntry.isPushed (e : SuperpageQueueEntry) : Bool :=
  e.pushedPages == e.maxPages

/-- One slot of the card-shared ready FIFO: a length word and a status word.
The status is the unsigned reading of the volatile int32_t; the value -1 of
the source corresponds to 0xFFFFFFFF here. -/
structure ReadyFifoEntry where
  length : Nat
  status : Nat
deriving DecidableEq

/-- Reset slot value, status -1 (0xFFFFFFFF unsigned) and length 0. -/
def ReadyFifoEntry.reset : ReadyFifoEntry := { length := 0, status := 0xFFFFFFFF }

/-- The whole ready FIFO in its reset state. -/
def resetFifo : List ReadyFifoEntry := List.replicate READYFIFO_ENTRIES ReadyFifoEntry.reset

/-- A volatile write of four 32-bit words into the client DMA buffer
(the SDH event-size patch of fillSuperpages). -/
structure SdhWrite where
  address : Nat
  words : List Nat
deriving DecidableEq

/-- Payload of CrorcDataArrivalException: status word, length word and slot
index, plus which of the two throw sites of dataArrived produced it. -/
inductive ArrivalErrKind
  | errorBit
  | unrecognized
deriving DecidableEq

/-- DataArrivalError record carried by the exception. -/
structure DataArrivalError where
  status : Nat
  length : Nat
  index : Nat
  kind : ArrivalErrKind
deriving DecidableEq

/-- Result of dataArrived when it does not throw. -/
inductive DataArrivalStatus
  | NoneArrived
  | PartArrived
  | WholeArrived
deriving DecidableEq

/-- Coarse DMA state of the channel, kept by the DmaChannelBase wrapper. -/
inductive DmaState
  | stopped
  | started
deriving DecidableEq

/-- Construction-time parameters and registered-buffer data of the channel.
mDmaBufferUserspace and the bus base come from the buffer provider; the
transfer-queue capacity is the configured TRANSFER_QUEUE_SIZE of the spec. -/
structure CrorcConfig where
  mPageSize : Nat
  mBufferSize : Nat
  mDmaBufferUserspace : Nat
  mBusBase : Nat
  mTransferQueueSize : Nat
  mGeneratorEnabled : Bool
  mNoRDYRX : Bool
  mLoopbackMode : LoopbackMode
  mUseContinuousReadout : Bool
  mInitialResetLevel : ResetLevel
deriving DecidableEq

/-- Mutable state of a CrorcDmaChannel: ring pointers, the pending-start flag,
the three regions of the superpage queue (modelled from the spec section 4.2:
Pushing, Arrivals, Filled as ordered sequences), the ready FIFO contents, the
DMA state kept by the base wrapper, and the logs of MMIO commands and SDH
buffer writes performed so far. -/
structure ChannelState where
  mFifoBack : Nat
  mFifoSize : Nat
  pendingDmaStart : Bool
  dmaState : DmaState
  pushing : List SuperpageQueueEntry
  arrivals : List SuperpageQueueEntry
  filled : List SuperpageQueueEntry
  fifo : List ReadyFifoEntry
  hwLog : List HwCmd
  sdhWrites : List SdhWrite
deriving DecidableEq

/-- Channel state right after construction: reset FIFO, empty queues, no logs. -/
def initialChannelState : ChannelState :=
  { mFifoBack := 0, mFifoSize := 0, pendingDmaStart := false, dmaState := .stopped,
    pushing := [], arrivals := [], filled := [], fifo := resetFifo,
    hwLog := [], sdhWrites := [] }

/-- Errors raised by the channel facade on push and pop. -/
inductive ChannelError
  | queueFull
  | badSize
  | outOfRange
  | badAlignment
  | notMiBMultiple
  | queueEmpty
deriving DecidableEq

/-- CrorcDmaChannel::dataArrived, translated from the source: -1 means none
arrived, 0 partial, DTSW byte a whole arrival; bit 31 of a DTSW status is the
hardware error flag and throws, as does any other status value. -/
def dataArrived (fifo : List ReadyFifoEntry) (index : Nat) :
    Except DataArrivalError DataArrivalStatus :=
  let en := fifo.getD index ReadyFifoEntry.reset
  if en.status = 0xFFFFFFFF then .ok .NoneArrived
  else if en.status = 0 then .ok .PartArrived
  else if en.status % 256 = DTSW then
    if en.status.testBit 31 then
      .error { status := en.status, length := en.length, index := index, kind := .errorBit }
    else .ok .WholeArrived
  else .error { status := en.status, length := en.length, index := index, kind := .unrecognized }

/-- Modelled from the spec: getFifoFront of the CrorcDmaChannel header (not in
the tree); the write slot is (fifo_back + fifo_size) mod N. -/
def getFifoFront (s : ChannelState) : Nat :=
  (s.mFifoBack + s.mFifoSize) % READYFIFO_ENTRIES

/-- CrorcDmaChannel::getNextSuperpageBusAddress. -/
def getNextSuperpageBusAddress (cfg : CrorcConfig) (e : SuperpageQueueEntry) : Nat :=
  e.busAddress + cfg.mPageSize * e.pushedPages

/-- CrorcDmaChannel::pushIntoSuperpage: one descriptor push via
pushFreeFifoPage (length mPageSize / 4 words), incrementing the ring size and
the entry's pushed-page count. -/
def pushIntoSuperpage (cfg : CrorcConfig) (se : ChannelState × SuperpageQueueEntry) :
    ChannelState × SuperpageQueueEntry :=
  let s := se.1
  let e := se.2
  let s1 := { s with
    hwLog := s.hwLog ++
      [HwCmd.pushRxFreeFifo (getNextSuperpageBusAddress cfg e) (cfg.mPageSize / 4) (getFifoFront s)],
    mFifoSize := s.mFifoSize + 1 }
  (s1, { e with pushedPages := e.pushedPages + 1 })

/-- Iterated pushIntoSuperpage (the push loops of fillSuperpages and
startPendingDma). -/
def pushLoop (cfg : CrorcConfig) : Nat → ChannelState × SuperpageQueueEntry →
    ChannelState × SuperpageQueueEntry
  | 0, se => se
  | n + 1, se => pushLoop cfg n (pushIntoSuperpage cfg se)

/-- The list of descriptor-push commands emitted by pushLoop when the entry
starts at the given pushed-page count and the ring starts at the given back
index and size. -/
def pushCmds (cfg : CrorcConfig) : Nat → SuperpageQueueEntry → Nat → Nat → List HwCmd
  | 0, _, _, _ => []
  | n + 1, e, back, size =>
    HwCmd.pushRxFreeFifo (getNextSuperpageBusAddress cfg e) (cfg.mPageSize / 4)
        ((back + size) % READYFIFO_ENTRIES)
      :: pushCmds cfg n { e with pushedPages := e.pushedPages + 1 } back (size + 1)

/-- Push phase of CrorcDmaChannel::fillSuperpages (the non-pending-start
branch): pushes min(FIFO_QUEUE_MAX - fifo_size, unpushed) descriptors for the
front Pushing entry and moves it to Arrivals when fully pushed. -/
def pushPhase (cfg : CrorcConfig) (s : ChannelState) : ChannelState :=
  match s.pushing with
  | [] => s
  | e :: rest =>
    let possibleToPush := min (FIFO_QUEUE_MAX - s.mFifoSize) (e.getUnpushedPages)
    let se := pushLoop cfg possibleToPush (s, e)
    let s1 := se.1
    let e1 := se.2
    if e1.isPushed then
      { s1 with pushing := rest, arrivals := s1.arrivals ++ [e1] }
    else
      { s1 with pushing := e1 :: rest }

/-- Command sequence of CrorcDmaChannel::startDataGenerator. -/
def startDataGeneratorCmds (cfg : CrorcConfig) : List HwCmd :=
  (if cfg.mLoopbackMode = .None then [HwCmd.startTrigger] else []) ++
  [HwCmd.armDataGenerator] ++
  (if cfg.mLoopbackMode = .Internal then [HwCmd.setLoopbackOn] else []) ++
  (if cfg.mLoopbackMode = .Siu then
    [HwCmd.setSiuLoopback, HwCmd.assertLinkUp, HwCmd.siuCommand, HwCmd.diuCommand] else []) ++
  [HwCmd.startDataGeneratorCmd]

/-- Command sequence of CrorcDmaChannel::deviceResetChannel. -/
def deviceResetChannelCmds (cfg : CrorcConfig) (level : ResetLevel) : List HwCmd :=
  if level = .Nothing then []
  else
    (if level = .Internal then [HwCmd.resetCommand .FF, HwCmd.resetCommand .RORC] else []) ++
    (if cfg.mLoopbackMode.isExternal then
      [HwCmd.armDdl .DIU] ++
      (if level = .InternalDiuSiu ∧ cfg.mLoopbackMode ≠ .Diu then
        [HwCmd.armDdl .SIU, HwCmd.armDdl .DIU] else []) ++
      [HwCmd.armDdl .RORC]
     else [])

/-- Command sequence of CrorcDmaChannel::startDataReceiving. -/
def startDataReceivingCmds (cfg : CrorcConfig) : List HwCmd :=
  [HwCmd.initDiuVersion] ++
  (if cfg.mLoopbackMode = .Siu then
    deviceResetChannelCmds cfg .InternalDiuSiu ++
      [HwCmd.assertLinkUp, HwCmd.siuCommand, HwCmd.diuCommand]
   else []) ++
  [HwCmd.resetCommand .FF, HwCmd.assertFreeFifoEmpty, HwCmd.startDataReceiver]

/-- CrorcDmaChannel::startPendingDma: arm the card, reset the FIFO slots while
pushing READYFIFO_ENTRIES descriptors from the front Pushing entry, move the
entry to Arrivals when fully pushed, start the generator or trigger, credit
the entry's received count by READYFIFO_ENTRIES pages, move it to Filled when
complete, then reset the ring pointers and clear the pending flag.  The
dataArrived check on the last slot reads the just-reset FIFO and therefore
only produces the none-arrived warning of the source. -/
def startPendingDma (cfg : CrorcConfig) (s : ChannelState) : ChannelState :=
  if !s.pendingDmaStart then s
  else
    match s.pushing with
    | [] => s
    | e :: rest =>
      let log0 :=
        (if cfg.mUseContinuousReadout then [HwCmd.initReadoutContinuous] else []) ++
        [HwCmd.initDiuVersion] ++
        deviceResetChannelCmds cfg cfg.mInitialResetLevel ++
        startDataReceivingCmds cfg
      let s0 := { s with hwLog := s.hwLog ++ log0, fifo := resetFifo }
      let se := pushLoop cfg READYFIFO_ENTRIES (s0, e)
      let s1 := se.1
      let e1 := se.2
      let moved := e1.isPushed
      let genLog :=
        if cfg.mGeneratorEnabled then startDataGeneratorCmds cfg
        else if cfg.mNoRDYRX then []
        else [HwCmd.assertLinkUp, HwCmd.siuCommand, HwCmd.diuCommand, HwCmd.startTrigger]
      let e2 := { e1 with superpage :=
        { e1.superpage with received := e1.superpage.received + READYFIFO_ENTRIES * cfg.mPageSize } }
      let gotFilled := e2.superpage.isFilled
      let e3 := if gotFilled then { e2 with superpage := { e2.superpage with ready := true } } else e2
      let pushing1 := if moved then rest else e3 :: rest
      let arrivals1 := if moved then s.arrivals ++ [e3] else s.arrivals
      let moveResult :=
        if gotFilled then
          match arrivals1 with
          | [] => (arrivals1, s.filled)
          | a :: tl => (tl, s.filled ++ [a])
        else (arrivals1, s.filled)
      { s1 with
        pushing := pushing1, arrivals := moveResult.1, filled := moveResult.2,
        fifo := resetFifo, mFifoBack := 0, mFifoSize := 0, pendingDmaStart := false,
        hwLog := s1.hwLog ++ genLog ++
          (if cfg.mUseContinuousReadout then [HwCmd.startReadoutContinuous] else []) }

/-- Result of fillSuperpages: either a final state or a thrown
DataArrivalError together with the channel state left behind at the throw
point (C++ exception semantics keep the mutations made before the throw). -/
inductive FillResult
  | ok (s : ChannelState)
  | err (e : DataArrivalError) (s : ChannelState)
deriving DecidableEq

/-- State component of a FillResult. -/
def FillResult.state : FillResult → ChannelState
  | .ok s => s
  | .err _ s => s

/-- Arrival phase of CrorcDmaChannel::fillSuperpages: while descriptors are
outstanding, inspect the slot at fifo_back; a whole arrival patches the SDH
event-size words in the page, resets the slot, advances the ring, credits the
head Arrivals entry one page and moves it to Filled when complete; a
none-arrived or partial slot stops the scan; error statuses throw.  The fuel
argument bounds the iteration (each consuming step decreases fifo_size, so
fifo_size is enough fuel). -/
def arrivalLoop (cfg : CrorcConfig) : Nat → ChannelState → FillResult
  | 0, s => .ok s
  | fuel + 1, s =>
    if s.mFifoSize = 0 then .ok s
    else
      match s.arrivals with
      | [] => .ok s
      | e :: rest =>
        match dataArrived s.fifo s.mFifoBack with
        | .error er => .err er s
        | .ok .WholeArrived =>
          let length := (s.fifo.getD s.mFifoBack ReadyFifoEntry.reset).length
          let pageAddress := cfg.mDmaBufferUserspace + e.superpage.offset + e.superpage.received
          let sp1 := { e.superpage with received := e.superpage.received + cfg.mPageSize }
          let s1 := { s with
            sdhWrites := s.sdhWrites ++
              [({ address := pageAddress + 16, words := [0, 0, 0, length] } : SdhWrite)],
            fifo := s.fifo.set s.mFifoBack ReadyFifoEntry.reset,
            mFifoSize := s.mFifoSize - 1,
            mFifoBack := (s.mFifoBack + 1) % READYFIFO_ENTRIES }
          if sp1.isFilled then
            arrivalLoop cfg fuel { s1 with
              arrivals := rest,
              filled := s1.filled ++ [{ e with superpage := { sp1 with ready := true } }] }
          else
            arrivalLoop cfg fuel { s1 with arrivals := { e with superpage := sp1 } :: rest }
        | .ok _ => .ok s

/-- CrorcDmaChannel::fillSuperpages: push phase (or the deferred DMA start)
when Pushing is non-empty, then the arrival phase when Arrivals is non-empty. -/
def fillSuperpages (cfg : CrorcConfig) (s : ChannelState) : FillResult :=
  let s1 :=
    match s.pushing with
    | [] => s
    | _ :: _ => if s.pendingDmaStart then startPendingDma cfg s else pushPhase cfg s
  if s1.arrivals.isEmpty then .ok s1 else arrivalLoop cfg s1.mFifoSize s1

/-- Modelled from the spec: SuperpageQueue::getQueueAvailable (header not in
the tree); remaining transfer-queue slack is the capacity minus the Pushing
and Arrivals populations. -/
def getQueueAvailable (cfg : CrorcConfig) (s : ChannelState) : Nat :=
  cfg.mTransferQueueSize - (s.pushing.length + s.arrivals.length)

/-- Modelled from the spec: DmaChannelPdaBase::checkSuperpage (base class not
in the tree); validates transfer queue not full, non-zero size on the 32 KiB
granule, offset+size within the registered buffer, and 4-byte alignment. -/
def checkSuperpage (cfg : CrorcConfig) (s : ChannelState) (sp : Superpage) :
    Option ChannelError :=
  if getQueueAvailable cfg s = 0 then some .queueFull
  else if sp.size = 0 then some .badSize
  else if sp.size % 32768 ≠ 0 then some .badSize
  else if sp.offset + sp.size > cfg.mBufferSize then some .outOfRange
  else if sp.offset % 4 ≠ 0 then some .badAlignment
  else none

/-- CrorcDmaChannel::pushSuperpage: validate, require a 1 MiB multiple, then
append a fresh entry whose stored superpage has received reset to 0; the bus
address is the buffer bus base plus the superpage offset. -/
def pushSuperpage (cfg : CrorcConfig) (s : ChannelState) (sp : Superpage) :
    Except ChannelError ChannelState :=
  match checkSuperpage cfg s sp with
  | some er => .error er
  | none =>
    if sp.size % (1024 * 1024) ≠ 0 then .error .notMiBMultiple
    else
      .ok { s with
        pushing := s.pushing ++
          [{ superpage := { sp with received := 0 },
             busAddress := cfg.mBusBase + sp.offset,
             maxPages := sp.size / cfg.mPageSize,
             pushedPages := 0 }] }

/-- CrorcDmaChannel::popSuperpage: remove and return the head of Filled. -/
def popSuperpage (s : ChannelState) : Except ChannelError (Superpage × ChannelState) :=
  match s.filled with
  | [] => .error .queueEmpty
  | e :: rest => .ok (e.superpage, { s with filled := rest })

/-- CrorcDmaChannel::deviceStartDma: clear the queues and ring pointers and
set the pending-start flag; no hardware traffic. -/
def deviceStartDma (s : ChannelState) : ChannelState :=
  { s with
    mFifoBack := 0, mFifoSize := 0, pushing := [], arrivals := [], filled := [],
    pendingDmaStart := true }

/-- Modelled from the spec: the DmaChannelBase start_dma wrapper (base class
not in the tree); the Stopped to PendingStart transition runs deviceStartDma
and marks the channel started. -/
def startDma (s : ChannelState) : ChannelState :=
  if s.dmaState = .started then s
  else { deviceStartDma s with dmaState := .started }

/-- A Card Ops failure, carrying the command that failed. -/
structure CardError where
  cmd : HwCmd
deriving DecidableEq

/-- Issue a list of Card Ops commands; the oracle says which calls fail.
Commands issued before a failure stay in the log (C++ exception semantics). -/
def runCmds (oracle : HwCmd → Bool) : ChannelState → List HwCmd →
    ChannelState × Option CardError
  | s, [] => (s, none)
  | s, c :: cs =>
    if oracle c then (s, some { cmd := c })
    else runCmds oracle { s with hwLog := s.hwLog ++ [c] } cs

/-- Command sequence of CrorcDmaChannel::deviceStopDma: with the generator
enabled, re-arm the generator then stop generator and receiver; otherwise
send the end-of-burst trigger unless mNoRDYRX suppresses it. -/
def deviceStopDmaCmds (cfg : CrorcConfig) : List HwCmd :=
  if cfg.mGeneratorEnabled then
    startDataGeneratorCmds cfg ++ [HwCmd.stopDataGeneratorCmd, HwCmd.stopDataReceiver]
  else if cfg.mNoRDYRX then []
  else [HwCmd.stopTrigger]

/-- Modelled from the spec: the DmaChannelBase stop_dma wrapper (base class
not in the tree); per the spec a stop on an already stopped channel is a
warning-only no-op and Card Ops errors during stop are logged, not
propagated, so the wrapper always completes. -/
def stopDma (cfg : CrorcConfig) (oracle : HwCmd → Bool) (s : ChannelState) :
    Except CardError ChannelState :=
  if s.dmaState = .stopped then .ok s
  else
    let r := runCmds oracle s (deviceStopDmaCmds cfg)
    .ok { r.1 with dmaState := .stopped }

/-- Public operations of the channel facade, for stating whole-operation
invariants. -/
inductive ChannelOp
  | push (sp : Superpage)
  | pop
  | fill
  | start
  | stop (oracle : HwCmd → Bool)

/-- Apply one facade operation; a rejected push or pop leaves the state
unchanged, a throwing fill leaves the state at the throw point. -/
def applyOp (cfg : CrorcConfig) : ChannelOp → ChannelState → ChannelState
  | .push sp, s =>
    match pushSuperpage cfg s sp with
    | .ok s1 => s1
    | .error _ => s
  | .pop, s =>
    match popSuperpage s with
    | .ok r => r.2
    | .error _ => s
  | .fill, s => (fillSuperpages cfg s).state
  | .start, s => startDma s
  | .stop oracle, s =>
    match stopDma cfg oracle s with
    | .ok s1 => s1
    | .error _ => s

/-- Utilities::getBits(value, lsb, msb): the bit field of the value between
positions lsb and msb inclusive (Utilities header not in the tree; the spec
section 6 fixes the field layout this helper realizes). -/
def getBits (v lsb msb : Nat) : Nat :=
  (v >>> lsb) % 2 ^ (msb - lsb + 1)

/-- Error raised by getFirmwareInfo when the static field of the version
register is not 0x2 (a CrorcException, a CardError kind). -/
inductive FirmwareError
  | staticFieldMismatch
deriving DecidableEq

/-- CrorcDmaChannel::getFirmwareInfo on an already-read RFID register value:
decode reserved[24:31], major[20:23], minor[13:19], year[9:12]+2000,
month[5:8], day[0:4]; fail when reserved is not 0x2, else render
major.minor:year-month-day in decimal. -/
def getFirmwareInfo (version : Nat) : Except FirmwareError String :=
  let reserved := getBits version 24 31
  let major := getBits version 20 23
  let minor := getBits version 13 19
  let year := getBits version 9 12 + 2000
  let month := getBits version 5 8
  let day := getBits version 0 4
  if reserved ≠ 0x2 then .error .staticFieldMismatch
  else .ok (Nat.repr major ++ "." ++ Nat.repr minor ++ ":" ++ Nat.repr year ++ "-" ++
    Nat.repr month ++ "-" ++ Nat.repr day)

/-- Pack the RFID fields into a register value following the layout of the
decoder: reserved at bit 24, major at 20, minor at 13, year at 9, month at 5,
day at 0. -/
def encodeRFID (reserved major minor year month day : Nat) : Nat :=
  reserved * 2 ^ 24 + major * 2 ^ 20 + minor * 2 ^ 13 + year * 2 ^ 9 + month * 2 ^ 5 + day

/-! The DummyDmaChannel of src/src/ChannelPaths.cxx: a pass-through channel
with a bounded transfer queue (capacity 16) and ready queue (capacity 32). -/

/-- Capacity of the dummy channel's transfer queue. -/
def TRANSFER_QUEUE_SIZE : Nat := 16

/-- Capacity of the dummy channel's ready queue. -/
def READY_QUEUE_SIZE : Nat := 32

/-- State of a DummyDmaChannel: the two circular buffers and the registered
buffer size. -/
structure DummyState where
  mTransferQueue : List Superpage
  mReadyQueue : List Superpage
  mBufferSize : Nat
deriving DecidableEq

/-- DummyDmaChannel::pushSuperpage: reject when the transfer queue is full,
the size is zero or not a 32 KiB multiple, the region is out of range, or the
offset is not 4-byte aligned; otherwise append to the transfer queue. -/
def dummyPushSuperpage (s : DummyState) (sp : Superpage) :
    Except ChannelError DummyState :=
  if TRANSFER_QUEUE_SIZE - s.mTransferQueue.length = 0 then .error .queueFull
  else if sp.size = 0 then .error .badSize
  else if sp.size % 32768 ≠ 0 then .error .badSize
  else if sp.offset + sp.size > s.mBufferSize then .error .outOfRange
  else if sp.offset % 4 ≠ 0 then .error .badAlignment
  else .ok { s with mTransferQueue := s.mTransferQueue ++ [sp] }

/-- DummyDmaChannel::popSuperpage: fail on an empty ready queue, else return
and remove its front. -/
def dummyPopSuperpage (s : DummyState) : Except ChannelError (Superpage × DummyState) :=
  match s.mReadyQueue with
  | [] => .error .queueEmpty
  | sp :: rest => .ok (sp, { s with mReadyQueue := rest })

/-- The transformation fillSuperpages of the dummy channel applies to each
superpage it delivers: mark it ready with all bytes received. -/
def fillTransform (sp : Superpage) : Superpage :=
  { sp with received := sp.size, ready := true }

/-- Inner loop of DummyDmaChannel::fillSuperpages: up to the initial
transfer-queue population, move the front transfer-queue superpage, marked
ready and fully received, to the back of the ready queue, stopping when the
ready queue is full. -/
def dummyFillGo : Nat → DummyState → DummyState
  | 0, s => s
  | n + 1, s =>
    if READY_QUEUE_SIZE ≤ s.mReadyQueue.length then s
    else
      match s.mTransferQueue with
      | [] => s
      | sp :: rest =>
        dummyFillGo n { s with
          mTransferQueue := rest,
          mReadyQueue := s.mReadyQueue ++ [fillTransform sp] }

/-- DummyDmaChannel::fillSuperpages. -/
def dummyFillSuperpages (s : DummyState) : DummyState :=
  dummyFillGo s.mTransferQueue.length s

/-- Client operations on the dummy channel. -/
inductive DummyOp
  | push (sp : Superpage)
  | fill
  | pop

/-- A dummy-channel execution: current state plus the observable histories,
the pushed superpages that were accepted and the popped superpages. -/
structure DummyRun where
  state : DummyState
  accepted : List Superpage
  popped : List Superpage
deriving DecidableEq

/-- One client operation on a dummy-channel run; rejected pushes and failing
pops leave everything unchanged. -/
def dummyStep (r : DummyRun) (op : DummyOp) : DummyRun :=
  match op with
  | .push sp =>
    match dummyPushSuperpage r.state sp with
    | .ok s1 => { r with state := s1, accepted := r.accepted ++ [sp] }
    | .error _ => r
  | .fill => { r with state := dummyFillSuperpages r.state }
  | .pop =>
    match dummyPopSuperpage r.state with
    | .ok p => { r with state := p.2, popped := r.popped ++ [p.1] }
    | .error _ => r

/-- Run a sequence of client operations on a freshly started dummy channel
with the given registered buffer size. -/
def runDummy (bufferSize : Nat) (ops : List DummyOp) : DummyRun :=
  ops.foldl dummyStep
    { state := { mTransferQueue := [], mReadyQueue := [], mBufferSize := bufferSize },
      accepted := [], popped := [] }

/-! Concrete configurations and states used by the end-to-end scenarios and
the witnesses of the quantified theorems. -/

/-- The configuration of the end-to-end scenarios: page size 8192, a 1 MiB
registered buffer at user and bus address 0, generator enabled with internal
loopback, mNoRDYRX true (the source default), no continuous readout. -/
def standardConfig : CrorcConfig :=
  { mPageSize := 8192, mBufferSize := 1048576, mDmaBufferUserspace := 0, mBusBase := 0,
    mTransferQueueSize := 32, mGeneratorEnabled := true, mNoRDYRX := true,
    mLoopbackMode := .Internal, mUseContinuousReadout := false,
    mInitialResetLevel := .Internal }

/-- The 1 MiB superpage at offset 0 of scenario S1. -/
def spOneMiB : Superpage := { offset := 0, size := 1048576, received := 0, ready := false }

/-- Scenario S1 in the operation order the claim states: push the superpage,
then start_dma, then fill_superpages. -/
def runS1ClaimOrder : ChannelState :=
  applyOp standardConfig .fill (applyOp standardConfig .start
    (applyOp standardConfig (.push spOneMiB) initialChannelState))

/-- Scenario S1 in the order the code supports: start_dma, then push the
superpage, then fill_superpages. -/
def runS1 : ChannelState :=
  applyOp standardConfig .fill (applyOp standardConfig (.push spOneMiB)
    (applyOp standardConfig .start initialChannelState))

/-- A fully pushed 1 MiB entry with one outstanding page, used as a concrete
Arrivals head in witnesses. -/
def entryW : SuperpageQueueEntry :=
  { superpage := { offset := 0, size := 1048576, received := 1040384, ready := false },
    busAddress := 0, maxPages := 128, pushedPages := 128 }

/-- A concrete state whose ring has one outstanding descriptor and whose
Arrivals head is entryW, the FIFO fully reset (no data arrived). -/
def stateNoArrival : ChannelState :=
  { initialChannelState with
    dmaState := .started, mFifoBack := 0, mFifoSize := 1, arrivals := [entryW] }

/-- The same state with an error status word 0x80000082 (DTSW byte plus error
bit 31) injected at slot 0. -/
def stateErrorSlot : ChannelState :=
  { stateNoArrival with fifo := resetFifo.set 0 { length := 2048, status := 0x80000082 } }

/-- A started channel with empty queues, for the stop_dma witnesses. -/
def startedState : ChannelState :=
  { initialChannelState with dmaState := .started }

/-- The state startedState reaches after one stop_dma whose Card Ops calls
all succeed under standardConfig: the deviceStopDma commands are logged and
the channel is marked stopped. -/
def stoppedState : ChannelState :=
  { startedState with
    dmaState := .stopped,
    hwLog := [HwCmd.armDataGenerator, HwCmd.setLoopbackOn, HwCmd.startDataGeneratorCmd,
      HwCmd.stopDataGeneratorCmd, HwCmd.stopDataReceiver] }

/-- A 1 MiB superpage whose received field is deliberately nonzero, for the
push-resets-received witness. -/
def spDirtyReceived : Superpage := { offset := 0, size := 1048576, received := 7, ready := false }

/-- The state reached by accepting spDirtyReceived into an initial channel
with standardConfig: the stored entry has received reset to 0. -/
def statePushedClean : ChannelState :=
  { initialChannelState with
    pushing := [{ superpage := { offset := 0, size := 1048576, received := 0, ready := false },
                  busAddress := 0, maxPages := 128, pushedPages := 0 }] }

/-- A 32 KiB superpage for the dummy-channel counterexample. -/
def spDummyA : Superpage := { offset := 0, size := 32768, received := 0, ready := false }

/-- A second 32 KiB superpage for the dummy-channel counterexample. -/
def spDummyB : Superpage := { offset := 32768, size := 32768, received := 0, ready := false }

/-- A freshly pushed, not yet pushed-to-hardware 1 MiB entry, used as the
Pushing head in the push-phase witness. -/
def entryP : SuperpageQueueEntry :=
  { superpage := { offset := 0, size := 1048576, received := 0, ready := false },
    busAddress := 0, maxPages := 128, pushedPages := 0 }

/-- A running channel whose Pushing queue holds entryP and whose ring is
empty, for the push-phase witness. -/
def statePushPhase : ChannelState :=
  { initialChannelState with dmaState := .started, pushing := [entryP] }

/-- Equality of accepted pushes and deliveries the dummy channel maintains:
the popped history, the ready queue, and the still-pending transfer queue
(under the delivery transform) together spell out the accepted push history
under that transform, in order. -/
def dummyInv (r : DummyRun) : Prop :=
  r.popped ++ r.state.mReadyQueue ++ r.state.mTransferQueue.map fillTransform =
    r.accepted.map fillTransform

/-! Helper lemmas. -/

/-- Unfolding of pushLoop: n iterations add n to the ring size, append the
corresponding descriptor-push commands to the hardware log, add n to the
entry's pushed-page count, and touch nothing else. -/
theorem pushLoop_spec (cfg : CrorcConfig) :
    ∀ (n : Nat) (s : ChannelState) (e : SuperpageQueueEntry),
      pushLoop cfg n (s, e) =
        ({ s with
            mFifoSize := s.mFifoSize + n,
            hwLog := s.hwLog ++ pushCmds cfg n e s.mFifoBack s.mFifoSize },
         { e with pushedPages := e.pushedPages + n }) := by
  intro n
  induction n with
  | zero => intro s e; simp [pushLoop, pushCmds]
  | succ n ih =>
    intro s e
    show pushLoop cfg n (pushIntoSuperpage cfg (s, e)) = _
    simp only [pushIntoSuperpage]
    rw [ih]
    simp only [pushCmds, getFifoFront, getNextSuperpageBusAddress]
    simp [List.append_assoc, Nat.add_assoc, Nat.add_comm, Nat.add_left_comm]

/-- pushCmds produces one command per requested push. -/
theorem pushCmds_length (cfg : CrorcConfig) :
    ∀ (n : Nat) (e : SuperpageQueueEntry) (back size : Nat),
      (pushCmds cfg n e back size).length = n := by
  intro n
  induction n with
  | zero => intro e back size; simp [pushCmds]
  | succ n ih => intro e back size; simp [pushCmds, ih]

/-- The i-th command of pushCmds targets bus address
busAddress + pageSize times (pushedPages + i), with pageSize / 4 words, into
ring slot (back + size + i) mod READYFIFO_ENTRIES. -/
theorem pushCmds_get (cfg : CrorcConfig) :
    ∀ (n : Nat) (e : SuperpageQueueEntry) (back size i : Nat), i < n →
      (pushCmds cfg n e back size).get? i =
        some (HwCmd.pushRxFreeFifo (e.busAddress + cfg.mPageSize * (e.pushedPages + i))
          (cfg.mPageSize / 4) ((back + size + i) % READYFIFO_ENTRIES)) := by
  intro n
  induction n with
  | zero => intro e back size i h; omega
  | succ n ih =>
    intro e back size i h
    match i with
    | 0 => simp [pushCmds, getNextSuperpageBusAddress]
    | i + 1 =>
      simp only [pushCmds, List.get?_cons_succ]
      rw [ih _ back (size + 1) i (by omega)]
      have h1 : e.pushedPages + 1 + i = e.pushedPages + (i + 1) := by omega
      have h2 : back + (size + 1) + i = back + size + (i + 1) := by omega
      simp [h1, h2]

/-- The command log never shrinks across runCmds, and runCmds changes only
the log. -/
theorem runCmds_state (oracle : HwCmd → Bool) :
    ∀ (cmds : List HwCmd) (s : ChannelState), ∃ l,
      (runCmds oracle s cmds).1 = { s with hwLog := s.hwLog ++ l } := by
  intro cmds
  induction cmds with
  | nil => intro s; exact ⟨[], by simp [runCmds]⟩
  | cons c cs ih =>
    intro s
    rw [runCmds]
    by_cases hc : oracle c
    · exact ⟨[], by simp [hc]⟩
    · obtain ⟨l, hl⟩ := ih { s with hwLog := s.hwLog ++ [c] }
      exact ⟨[c] ++ l, by simp [hc, hl]⟩

/-- The arrival phase never grows the ring population. -/
theorem arrivalLoop_fifoSize (cfg : CrorcConfig) :
    ∀ (n : Nat) (s : ChannelState),
      ((arrivalLoop cfg n s).state).mFifoSize ≤ s.mFifoSize := by
  intro n
  induction n with
  | zero => intro s; simp [arrivalLoop, FillResult.state]
  | succ n ih =>
    intro s
    rw [arrivalLoop]
    split
    · simp [FillResult.state]
    · split
      · simp [FillResult.state]
      · split
        · simp [FillResult.state]
        · dsimp only
          split
          · exact le_trans (ih _) (by dsimp only; omega)
          · exact le_trans (ih _) (by dsimp only; omega)
        · simp [FillResult.state]

/-- The push phase keeps the ring population within FIFO_QUEUE_MAX. -/
theorem pushPhase_fifoSize (cfg : CrorcConfig) (s : ChannelState)
    (h : s.mFifoSize ≤ FIFO_QUEUE_MAX) :
    (pushPhase cfg s).mFifoSize ≤ FIFO_QUEUE_MAX := by
  rw [pushPhase]
  split
  · exact h
  next e rest heq =>
    dsimp only
    have hn := min_le_left (FIFO_QUEUE_MAX - s.mFifoSize) e.getUnpushedPages
    revert hn
    generalize min (FIFO_QUEUE_MAX - s.mFifoSize) e.getUnpushedPages = n
    intro hn
    rw [pushLoop_spec]
    split <;> (dsimp only; omega)

/-- The deferred-start transition ends with an empty ring (it resets
fifo_size to 0 after the priming pushes), or leaves the state unchanged when
no start is pending or nothing was pushed. -/
theorem startPendingDma_fifoSize (cfg : CrorcConfig) (s : ChannelState) :
    (startPendingDma cfg s).mFifoSize = 0 ∨ startPendingDma cfg s = s := by
  rw [startPendingDma]
  split
  · exact Or.inr rfl
  · split
    · exact Or.inr rfl
    · exact Or.inl rfl

/-- fillSuperpages keeps the ring population within FIFO_QUEUE_MAX. -/
theorem fillSuperpages_fifoSize (cfg : CrorcConfig) (s : ChannelState)
    (h : s.mFifoSize ≤ FIFO_QUEUE_MAX) :
    ((fillSuperpages cfg s).state).mFifoSize ≤ FIFO_QUEUE_MAX := by
  have hmain : ∀ s1 : ChannelState, s1.mFifoSize ≤ FIFO_QUEUE_MAX →
      ((if s1.arrivals.isEmpty then FillResult.ok s1
        else arrivalLoop cfg s1.mFifoSize s1).state).mFifoSize ≤ FIFO_QUEUE_MAX := by
    intro s1 h1
    split
    · exact h1
    · exact le_trans (arrivalLoop_fifoSize cfg s1.mFifoSize s1) h1
  rw [fillSuperpages]
  cases hp : s.pushing with
  | nil => exact hmain s h
  | cons e rest =>
    dsimp only
    by_cases hpend : s.pendingDmaStart
    · rw [if_pos hpend]
      rcases startPendingDma_fifoSize cfg s with h0 | h0
      · exact hmain _ (by omega)
      · rw [h0]; exact hmain s h
    · rw [if_neg hpend]
      exact hmain _ (pushPhase_fifoSize cfg s h)

/-- A successful push changes only the Pushing queue, in particular not the
ring population. -/
theorem pushSuperpage_fifoSize (cfg : CrorcConfig) (s : ChannelState) (sp : Superpage)
    (s1 : ChannelState) (h : pushSuperpage cfg s sp = .ok s1) :
    s1.mFifoSize = s.mFifoSize := by
  rw [pushSuperpage] at h
  split at h
  · simp at h
  · split at h
    · simp at h
    · have h2 := Except.ok.inj h
      subst h2
      rfl

/-- A successful pop changes only the Filled queue, in particular not the
ring population. -/
theorem popSuperpage_fifoSize (s : ChannelState) (p : Superpage × ChannelState)
    (h : popSuperpage s = .ok p) :
    p.2.mFifoSize = s.mFifoSize := by
  rw [popSuperpage] at h
  split at h
  · simp at h
  · injection h with h2
    subst h2
    rfl

/-- The delivery transform of the dummy channel is idempotent. -/
theorem fillTransform_idem (sp : Superpage) :
    fillTransform (fillTransform sp) = fillTransform sp := by
  simp [fillTransform]

/-- The fill loop of the dummy channel only moves superpages from the
transfer queue to the ready queue under the delivery transform: the
concatenation of ready queue and transformed transfer queue is unchanged. -/
theorem dummyFillGo_concat :
    ∀ (n : Nat) (s : DummyState),
      (dummyFillGo n s).mReadyQueue ++ (dummyFillGo n s).mTransferQueue.map fillTransform =
        s.mReadyQueue ++ s.mTransferQueue.map fillTransform := by
  intro n
  induction n with
  | zero => intro s; simp [dummyFillGo]
  | succ n ih =>
    intro s
    rw [dummyFillGo]
    split
    · rfl
    · split
      · rfl
      next x sp rest heq =>
        rw [ih]
        simp [heq, List.append_assoc]

/-- Inversion of a successful dummy push: the new state appends the superpage
to the transfer queue. -/
theorem dummyPush_ok {s : DummyState} {sp : Superpage} {s1 : DummyState}
    (h : dummyPushSuperpage s sp = .ok s1) :
    s1 = { s with mTransferQueue := s.mTransferQueue ++ [sp] } := by
  rw [dummyPushSuperpage] at h
  iterate 5 (split at h; · simp at h)
  exact (Except.ok.inj h).symm

/-- Inversion of a successful dummy pop: the popped superpage was the front of
the ready queue and the new state drops it. -/
theorem dummyPop_ok {s : DummyState} {p : Superpage × DummyState}
    (h : dummyPopSuperpage s = .ok p) :
    s.mReadyQueue = p.1 :: s.mReadyQueue.tail ∧
      p.2 = { s with mReadyQueue := s.mReadyQueue.tail } := by
  rw [dummyPopSuperpage] at h
  split at h
  · simp at h
  next sp rest heq =>
    injection h with h2
    subst h2
    simp [heq]

/-- One dummy-channel operation preserves the dummy queue equality. -/
theorem dummyStep_inv (r : DummyRun) (op : DummyOp) (h : dummyInv r) :
    dummyInv (dummyStep r op) := by
  cases op with
  | push sp =>
    rw [dummyInv] at h ⊢
    rw [dummyStep]
    split
    next s1 heq =>
      rw [dummyPush_ok heq]
      simp only [List.map_append, ← List.append_assoc]
      rw [h]
    next => exact h
  | fill =>
    rw [dummyInv] at h ⊢
    rw [dummyStep]
    simp only [dummyFillSuperpages]
    rw [← h, List.append_assoc, List.append_assoc, dummyFillGo_concat]
  | pop =>
    rw [dummyInv] at h ⊢
    rw [dummyStep]
    split
    next p heq =>
      obtain ⟨h1, h2⟩ := dummyPop_ok heq
      rw [h2, ← h, h1]
      simp [List.append_assoc]
    next => exact h

/-- Every dummy-channel run satisfies the dummy queue equality. -/
theorem runDummy_inv (bufferSize : Nat) (ops : List DummyOp) :
    dummyInv (runDummy bufferSize ops) := by
  rw [runDummy]
  have hgen : ∀ (l : List DummyOp) (r : DummyRun), dummyInv r → dummyInv (l.foldl dummyStep r) := by
    intro l
    induction l with
    | nil => intro r h; exact h
    | cons op l ih => intro r h; exact ih _ (dummyStep_inv r op h)
  exact hgen ops _ (by simp [dummyInv])

/-! Claim theorems. -/

/-- C1 (counterexample): in the operation order the claim states (push the
superpage, then start_dma, then fill_superpages) the engine delivers nothing:
deviceStartDma clears the superpage queue, so after fill_superpages the
Filled queue is empty, no descriptor was primed, and pop_superpage fails with
the queue-empty error instead of returning the filled superpage. -/
theorem claim_C1_counterexample :
    runS1ClaimOrder.filled = [] ∧
    (runS1ClaimOrder.hwLog.filter HwCmd.isPushRxFreeFifo).length = 0 ∧
    popSuperpage runS1ClaimOrder = .error .queueEmpty := by
  decide

set_option maxRecDepth 10000 in
/-- C1 (amended): cold start with page size 8192 and ring size 128, in the
order the code supports: the client calls start_dma, pushes one superpage
at offset 0 of size 1 MiB, then calls fill_superpages.  The engine primes
exactly 128 descriptors from that superpage, the superpage's received becomes
128 * 8192 = 1048576, the entry moves to the Filled queue, and pop_superpage
returns offset 0, size 1 MiB, received 1 MiB, ready true. -/
theorem claim_C1 :
    (runS1.hwLog.filter HwCmd.isPushRxFreeFifo).length = 128 ∧
    runS1.filled.map (fun e => e.superpage) =
      [{ offset := 0, size := 1048576, received := 128 * 8192, ready := true }] ∧
    (popSuperpage runS1).map Prod.fst =
      .ok { offset := 0, size := 1048576, received := 1048576, ready := true } := by
  decide

/-- C4 (counterexample): on the dummy channel the sequence returned by
pop_superpage is not literally the accepted pushed sequence: a pop returns
the superpage with received overwritten to its size and ready set, and pushes
that have not yet been filled and popped are missing from the popped
sequence.  Run push A, fill, pop, push B: the popped history is the delivered
variant of A alone, not the accepted history A, B. -/
theorem claim_C4_counterexample :
    (runDummy 65536 [.push spDummyA, .fill, .pop, .push spDummyB]).popped ≠
      (runDummy 65536 [.push spDummyA, .fill, .pop, .push spDummyB]).accepted ∧
    (runDummy 65536 [.push spDummyA, .fill, .pop, .push spDummyB]).popped =
      [{ offset := 0, size := 32768, received := 32768, ready := true }] ∧
    (runDummy 65536 [.push spDummyA, .fill, .pop, .push spDummyB]).accepted =
      [spDummyA, spDummyB] := by
  decide

/-- C4 (amended): order preservation on the dummy channel.  For every
sequence of push_superpage calls interleaved with any number of
fill_superpages and pop_superpage calls, the sequence of superpages returned
by pop_superpage is, in push order, an initial segment of the accepted pushed
sequence with each element delivered as received = size and ready = true. -/
theorem claim_C4 (bufferSize : Nat) (ops : List DummyOp) :
    ∃ t, (runDummy bufferSize ops).popped ++ t =
      ((runDummy bufferSize ops).accepted).map fillTransform := by
  refine ⟨(runDummy bufferSize ops).state.mReadyQueue ++
    ((runDummy bufferSize ops).state.mTransferQueue).map fillTransform, ?_⟩
  have h := runDummy_inv bufferSize ops
  rw [dummyInv] at h
  rw [← h]
  simp [List.append_assoc]

/-- C7: errors raised by Card Ops operations during stop_dma are swallowed,
so for every channel state and every pattern of Card Ops failures a stop_dma
call always completes without raising an error to the caller. -/
theorem claim_C7 (cfg : CrorcConfig) (oracle : HwCmd → Bool) (s : ChannelState) :
    ∃ s1, stopDma cfg oracle s = .ok s1 := by
  rw [stopDma]
  split
  · exact ⟨s, rfl⟩
  · exact ⟨_, rfl⟩

/-- C8: idempotent stop.  After a stop_dma call has produced state s1, a
second stop_dma returns s1 itself (whatever its Card Ops failure pattern):
the second call changes no state, and since the hardware-command log is part
of the state and is returned unchanged, it issues no hardware commands. -/
theorem claim_C8 (cfg : CrorcConfig) (o1 o2 : HwCmd → Bool) (s s1 : ChannelState)
    (h : stopDma cfg o1 s = .ok s1) :
    stopDma cfg o2 s1 = .ok s1 := by
  rw [stopDma] at h
  rw [stopDma]
  split at h
  next hstop =>
    cases h
    rw [if_pos hstop]
  next =>
    cases h
    rfl

/-- Witness for C8 at a concrete started state under standardConfig. -/
theorem claim_C8_witness :
    stopDma standardConfig (fun _ => false) stoppedState = .ok stoppedState :=
  claim_C8 standardConfig (fun _ => false) (fun _ => false) startedState stoppedState
    (by decide)

/-- C9 (counterexample): the RFID value encoding reserved 0x02, major 3,
minor 0x14, year-field 2, month 3, day 5 decodes to the string 3.20:2002-3-5,
because the year field is added to 2000, not to the string 2020-3-5 the claim
states (a year rendered as 2020 would need year-field 20, which does not fit
the 4-bit field bits 9 to 12). -/
theorem claim_C9_counterexample :
    getFirmwareInfo (encodeRFID 2 3 20 2 3 5) = .ok "3.20:2002-3-5" ∧
    getFirmwareInfo (encodeRFID 2 3 20 2 3 5) ≠ .ok "3.20:2020-3-5" := by
  decide

/-- C9 (amended): get_firmware_info fails with the CardError-kind exception
whenever bits 24 to 31 of the register value differ from 0x2; otherwise it
returns major.minor:year-month-day with major = bits 20 to 23, minor = bits
13 to 19, year = bits 9 to 12 plus 2000, month = bits 5 to 8, day = bits 0 to
4; in particular the value encoding reserved 0x02, major 3, minor 0x14,
year-field 2, month 3, day 5 yields the string 3.20:2002-3-5. -/
theorem claim_C9 (v reserved major minor year month day : Nat)
    (hres : reserved < 256) (hmaj : major < 16) (hmin : minor < 128)
    (hyear : year < 16) (hmon : month < 16) (hday : day < 32) :
    (getBits v 24 31 ≠ 2 → getFirmwareInfo v = .error .staticFieldMismatch) ∧
    getFirmwareInfo (encodeRFID reserved major minor year month day) =
      (if reserved = 2 then
        .ok (Nat.repr major ++ "." ++ Nat.repr minor ++ ":" ++ Nat.repr (year + 2000) ++ "-" ++
          Nat.repr month ++ "-" ++ Nat.repr day)
       else .error .staticFieldMismatch) := by
  constructor
  · intro hv
    rw [getFirmwareInfo]
    rw [if_pos hv]
  · have h24 : getBits (encodeRFID reserved major minor year month day) 24 31 = reserved := by
      simp only [getBits, encodeRFID, Nat.shiftRight_eq_div_pow]
      norm_num
      omega
    have h20 : getBits (encodeRFID reserved major minor year month day) 20 23 = major := by
      simp only [getBits, encodeRFID, Nat.shiftRight_eq_div_pow]
      norm_num
      omega
    have h13 : getBits (encodeRFID reserved major minor year month day) 13 19 = minor := by
      simp only [getBits, encodeRFID, Nat.shiftRight_eq_div_pow]
      norm_num
      omega
    have h9 : getBits (encodeRFID reserved major minor year month day) 9 12 = year := by
      simp only [getBits, encodeRFID, Nat.shiftRight_eq_div_pow]
      norm_num
      omega
    have h5 : getBits (encodeRFID reserved major minor year month day) 5 8 = month := by
      simp only [getBits, encodeRFID, Nat.shiftRight_eq_div_pow]
      norm_num
      omega
    have h0 : getBits (encodeRFID reserved major minor year month day) 0 4 = day := by
      simp only [getBits, encodeRFID, Nat.shiftRight_eq_div_pow]
      norm_num
      omega
    rw [getFirmwareInfo, h24, h20, h13, h9, h5, h0]
    by_cases hr : reserved = 2
    · rw [if_neg (by omega), if_pos hr]
    · rw [if_pos hr, if_neg hr]

/-- Witness for C9 at the S5 field values. -/
theorem claim_C9_witness :
    getFirmwareInfo (encodeRFID 2 3 20 2 3 5) = .ok "3.20:2002-3-5" := by
  have h := (claim_C9 0 2 3 20 2 3 5 (by decide) (by decide) (by decide) (by decide)
    (by decide) (by decide)).2
  rw [h]
  decide

/-- C10: for every superpage sp accepted by push_superpage on the C-RORC
channel, the stored entry's superpage has received reset to 0, and the push
result does not depend on the received field the client passed in at all
(the two pushes produce equal channel states, so the received and ready
values later observed through get_superpage and pop_superpage depend only on
DMA progress after the push). -/
theorem claim_C10 (cfg : CrorcConfig) (s : ChannelState) (sp : Superpage) (r : Nat)
    (s1 : ChannelState) :
    pushSuperpage cfg s { sp with received := r } = pushSuperpage cfg s sp ∧
    (pushSuperpage cfg s sp = .ok s1 →
      s1 = { s with
        pushing := s.pushing ++
          [{ superpage := { sp with received := 0 },
             busAddress := cfg.mBusBase + sp.offset,
             maxPages := sp.size / cfg.mPageSize,
             pushedPages := 0 }] }) := by
  constructor
  · rfl
  · intro h
    rw [pushSuperpage] at h
    split at h
    · simp at h
    · split at h
      · simp at h
      · exact (Except.ok.inj h).symm

/-- Witness for C10: pushing a 1 MiB superpage whose received field is 7 into
a fresh channel stores it with received 0. -/
theorem claim_C10_witness :
    pushSuperpage standardConfig initialChannelState
        { spDirtyReceived with received := 3 } =
      pushSuperpage standardConfig initialChannelState spDirtyReceived ∧
    statePushedClean = { initialChannelState with
      pushing := [{ superpage := { spDirtyReceived with received := 0 },
                    busAddress := standardConfig.mBusBase + spDirtyReceived.offset,
                    maxPages := spDirtyReceived.size / standardConfig.mPageSize,
                    pushedPages := 0 }] } :=
  ⟨(claim_C10 standardConfig initialChannelState spDirtyReceived 3 statePushedClean).1,
   (claim_C10 standardConfig initialChannelState spDirtyReceived 3 statePushedClean).2
     (by decide)⟩

/-- C5: bounded ring.  After every facade operation (push_superpage,
pop_superpage, fill_superpages including the deferred-start transition,
start_dma, stop_dma) the ring population satisfies
0 ≤ fifo_size ≤ FIFO_QUEUE_MAX (the lower bound holds by the Nat type), with
FIFO_QUEUE_MAX ≤ READYFIFO_ENTRIES = 128. -/
theorem claim_C5 (cfg : CrorcConfig) (op : ChannelOp) (s : ChannelState)
    (h : s.mFifoSize ≤ FIFO_QUEUE_MAX) :
    (applyOp cfg op s).mFifoSize ≤ FIFO_QUEUE_MAX ∧
    FIFO_QUEUE_MAX ≤ READYFIFO_ENTRIES ∧ READYFIFO_ENTRIES = 128 := by
  refine ⟨?_, by decide, by decide⟩
  cases op with
  | push sp =>
    rw [applyOp]
    split
    next s1 heq => rw [pushSuperpage_fifoSize cfg s sp s1 heq]; exact h
    next => exact h
  | pop =>
    rw [applyOp]
    split
    next p heq => rw [popSuperpage_fifoSize s p heq]; exact h
    next => exact h
  | fill =>
    rw [applyOp]
    exact fillSuperpages_fifoSize cfg s h
  | start =>
    rw [applyOp, startDma]
    split
    · exact h
    · simp [deviceStartDma]
  | stop oracle =>
    rw [applyOp]
    split
    next s1 heq =>
      rw [stopDma] at heq
      split at heq
      · cases heq; exact h
      · have h2 := Except.ok.inj heq
        subst h2
        obtain ⟨l, hl⟩ := runCmds_state oracle (deviceStopDmaCmds cfg) s
        rw [hl]
        exact h
    next => exact h

/-- Witness for C5: a fill_superpages call on a concrete state with one
outstanding descriptor. -/
theorem claim_C5_witness :
    (applyOp standardConfig .fill stateNoArrival).mFifoSize ≤ FIFO_QUEUE_MAX ∧
    FIFO_QUEUE_MAX ≤ READYFIFO_ENTRIES ∧ READYFIFO_ENTRIES = 128 :=
  claim_C5 standardConfig .fill stateNoArrival (by decide)

/-- C2: arrival phase of fill_superpages, one step of the scan loop while
fifo_size is positive and Arrivals is non-empty.  The engine inspects slot
fifo_back and stops when that slot's status is -1 (0xFFFFFFFF unsigned, none
arrived) or 0 (partial); when status mod 256 equals DTSW and bit 31 is clear,
it records the write of the four words 0, 0, 0, length at user address
buffer_base + offset + received + 16, resets the descriptor to status -1 and
length 0, decrements fifo_size, sets fifo_back to (fifo_back + 1) mod 128,
increments the head Arrivals superpage's received by page_size, and moves
that superpage to Filled with ready = true exactly when its received equals
its size. -/
theorem claim_C2 (cfg : CrorcConfig) (s : ChannelState) (fuel : Nat)
    (e : SuperpageQueueEntry) (rest : List SuperpageQueueEntry) (stat len : Nat)
    (harr : s.arrivals = e :: rest) (hsz : 0 < s.mFifoSize)
    (hstat : (s.fifo.getD s.mFifoBack ReadyFifoEntry.reset).status = stat)
    (hlen : (s.fifo.getD s.mFifoBack ReadyFifoEntry.reset).length = len) :
    (stat = 0xFFFFFFFF → arrivalLoop cfg (fuel + 1) s = .ok s) ∧
    (stat = 0 → arrivalLoop cfg (fuel + 1) s = .ok s) ∧
    (stat % 256 = DTSW → stat.testBit 31 = false →
      arrivalLoop cfg (fuel + 1) s = arrivalLoop cfg fuel
        (if e.superpage.received + cfg.mPageSize = e.superpage.size then
          { s with
            sdhWrites := s.sdhWrites ++
              [({ address := cfg.mDmaBufferUserspace + e.superpage.offset +
                    e.superpage.received + 16,
                  words := [0, 0, 0, len] } : SdhWrite)],
            fifo := s.fifo.set s.mFifoBack ReadyFifoEntry.reset,
            mFifoSize := s.mFifoSize - 1,
            mFifoBack := (s.mFifoBack + 1) % READYFIFO_ENTRIES,
            arrivals := rest,
            filled := s.filled ++
              [{ e with superpage := { e.superpage with
                   received := e.superpage.received + cfg.mPageSize, ready := true } }] }
         else
          { s with
            sdhWrites := s.sdhWrites ++
              [({ address := cfg.mDmaBufferUserspace + e.superpage.offset +
                    e.superpage.received + 16,
                  words := [0, 0, 0, len] } : SdhWrite)],
            fifo := s.fifo.set s.mFifoBack ReadyFifoEntry.reset,
            mFifoSize := s.mFifoSize - 1,
            mFifoBack := (s.mFifoBack + 1) % READYFIFO_ENTRIES,
            arrivals := { e with superpage := { e.superpage with
              received := e.superpage.received + cfg.mPageSize } } :: rest })) := by
  have hne : ¬ s.mFifoSize = 0 := by omega
  simp only [List.getD_eq_getElem?_getD] at hstat hlen
  refine ⟨?_, ?_, ?_⟩
  · intro h1
    rw [arrivalLoop, if_neg hne]
    simp [harr, dataArrived, hstat, h1]
  · intro h1
    rw [arrivalLoop, if_neg hne]
    simp [harr, dataArrived, hstat, h1]
  · intro h1 h2
    have hne1 : stat ≠ 4294967295 := by
      intro hh
      rw [hh, show DTSW = 130 from rfl] at h1
      omega
    have hne0 : stat ≠ 0 := by
      intro hh
      rw [hh, show DTSW = 130 from rfl] at h1
      omega
    rw [arrivalLoop, if_neg hne]
    by_cases hfill : e.superpage.received + cfg.mPageSize = e.superpage.size
    · simp [harr, dataArrived, hstat, hlen, hne1, hne0, h1, h2, Superpage.isFilled, hfill]
    · simp [harr, dataArrived, hstat, hlen, hne1, hne0, h1, h2, Superpage.isFilled, hfill]

/-- Witness for C2 at a concrete state whose slot 0 is reset (status -1): the
scan stops immediately with the state unchanged. -/
theorem claim_C2_witness :
    arrivalLoop standardConfig 1 stateNoArrival = .ok stateNoArrival :=
  (claim_C2 standardConfig stateNoArrival 0 entryW [] 0xFFFFFFFF 0 rfl (by decide)
    rfl rfl).1 rfl

/-- C3: push phase of fill_superpages.  When Pushing is non-empty and no DMA
start is pending, the engine pushes exactly
n = min(FIFO_QUEUE_MAX - fifo_size, max_pages - pushed_pages) descriptors for
the front Pushing entry, the i-th targeting bus address
bus_address + page_size * (pushed_pages + i) with page_size / 4 words into
ring slot (fifo_back + fifo_size + i) mod 128, incrementing fifo_size and
pushed_pages by one per push, and afterwards moves the entry from Pushing to
Arrivals if and only if pushed_pages reached max_pages; fill_superpages then
proceeds to the arrival phase on the resulting state. -/
theorem claim_C3 (cfg : CrorcConfig) (s : ChannelState) (e : SuperpageQueueEntry)
    (rest : List SuperpageQueueEntry) (n : Nat)
    (hpush : s.pushing = e :: rest) (hpend : s.pendingDmaStart = false)
    (hn : n = min (FIFO_QUEUE_MAX - s.mFifoSize) (e.maxPages - e.pushedPages)) :
    (pushPhase cfg s).mFifoSize = s.mFifoSize + n ∧
    (pushPhase cfg s).hwLog = s.hwLog ++ pushCmds cfg n e s.mFifoBack s.mFifoSize ∧
    (∀ i, i < n → (pushCmds cfg n e s.mFifoBack s.mFifoSize).get? i =
      some (HwCmd.pushRxFreeFifo (e.busAddress + cfg.mPageSize * (e.pushedPages + i))
        (cfg.mPageSize / 4) ((s.mFifoBack + s.mFifoSize + i) % READYFIFO_ENTRIES))) ∧
    (pushCmds cfg n e s.mFifoBack s.mFifoSize).length = n ∧
    (e.pushedPages + n = e.maxPages →
      (pushPhase cfg s).pushing = rest ∧
      (pushPhase cfg s).arrivals = s.arrivals ++ [{ e with pushedPages := e.pushedPages + n }]) ∧
    (e.pushedPages + n ≠ e.maxPages →
      (pushPhase cfg s).pushing = { e with pushedPages := e.pushedPages + n } :: rest ∧
      (pushPhase cfg s).arrivals = s.arrivals) ∧
    fillSuperpages cfg s =
      (if (pushPhase cfg s).arrivals.isEmpty then .ok (pushPhase cfg s)
       else arrivalLoop cfg (pushPhase cfg s).mFifoSize (pushPhase cfg s)) := by
  have hstate : pushPhase cfg s =
      (if e.pushedPages + n = e.maxPages then
        { s with
          mFifoSize := s.mFifoSize + n,
          hwLog := s.hwLog ++ pushCmds cfg n e s.mFifoBack s.mFifoSize,
          pushing := rest,
          arrivals := s.arrivals ++ [{ e with pushedPages := e.pushedPages + n }] }
       else
        { s with
          mFifoSize := s.mFifoSize + n,
          hwLog := s.hwLog ++ pushCmds cfg n e s.mFifoBack s.mFifoSize,
          pushing := { e with pushedPages := e.pushedPages + n } :: rest }) := by
    rw [pushPhase, hpush]
    dsimp only
    simp only [SuperpageQueueEntry.getUnpushedPages]
    rw [← hn, pushLoop_spec]
    dsimp only
    by_cases hc : e.pushedPages + n = e.maxPages
    · rw [if_pos hc, if_pos (by simp [SuperpageQueueEntry.isPushed, hc])]
    · rw [if_neg hc, if_neg (by simp [SuperpageQueueEntry.isPushed, hc])]
  refine ⟨?_, ?_, ?_, ?_, ?_, ?_, ?_⟩
  · rw [hstate]; split <;> rfl
  · rw [hstate]; split <;> rfl
  · intro i hi; exact pushCmds_get cfg n e s.mFifoBack s.mFifoSize i hi
  · exact pushCmds_length cfg n e s.mFifoBack s.mFifoSize
  · intro hc; rw [hstate, if_pos hc]; exact ⟨rfl, rfl⟩
  · intro hc; rw [hstate, if_neg hc]; exact ⟨rfl, rfl⟩
  · rw [fillSuperpages, hpush]
    dsimp only
    rw [hpend]
    simp

/-- Witness for C3 at a concrete Pushing head: a fresh 1 MiB entry on an
empty ring gets all min(128, 128) = 128 descriptors pushed. -/
theorem claim_C3_witness :
    (pushPhase standardConfig statePushPhase).mFifoSize = statePushPhase.mFifoSize + 128 :=
  (claim_C3 standardConfig statePushPhase entryP [] 128 rfl rfl (by decide)).1

/-- C6: hardware error atomicity.  If the descriptor at slot fifo_back has
status with byte DTSW and bit 31 set while Pushing is empty (the claim's
scenario: the Arrivals head is the only pushed superpage), fill_superpages
fails with the DataArrivalError carrying that status, the slot's length, and
the slot index, and the failing call changes no channel state: the state at
the throw point is the entry state itself, so the head Arrivals superpage is
not moved to Filled and fifo_size, fifo_back, and every received value keep
their prior values. -/
theorem claim_C6 (cfg : CrorcConfig) (s : ChannelState) (e : SuperpageQueueEntry)
    (rest : List SuperpageQueueEntry) (stat len : Nat)
    (hpush : s.pushing = []) (harr : s.arrivals = e :: rest) (hsz : 0 < s.mFifoSize)
    (hstat : (s.fifo.getD s.mFifoBack ReadyFifoEntry.reset).status = stat)
    (hlen : (s.fifo.getD s.mFifoBack ReadyFifoEntry.reset).length = len)
    (hdtsw : stat % 256 = DTSW) (hbit : stat.testBit 31 = true) :
    fillSuperpages cfg s =
      .err { status := stat, length := len, index := s.mFifoBack, kind := .errorBit } s := by
  have hne1 : stat ≠ 4294967295 := by
    intro hh
    rw [hh, show DTSW = 130 from rfl] at hdtsw
    omega
  have hne0 : stat ≠ 0 := by
    intro hh
    rw [hh, show DTSW = 130 from rfl] at hdtsw
    omega
  obtain ⟨k, hk⟩ : ∃ k, s.mFifoSize = k + 1 := ⟨s.mFifoSize - 1, by omega⟩
  simp only [List.getD_eq_getElem?_getD] at hstat hlen
  rw [fillSuperpages, hpush]
  dsimp only
  rw [if_neg (by simp [harr])]
  rw [hk, arrivalLoop, if_neg (by omega)]
  simp [harr, dataArrived, hstat, hlen, hdtsw, hbit, hne1, hne0]

/-- Witness for C6: the error status 0x80000082 with length 2048 at slot 0
makes fill_superpages fail with exactly that payload and the state at the
throw point is the entry state. -/
theorem claim_C6_witness :
    fillSuperpages standardConfig stateErrorSlot =
      .err { status := 0x80000082, length := 2048, index := 0, kind := .errorBit }
        stateErrorSlot :=
  claim_C6 standardConfig stateErrorSlot entryW [] 0x80000082 2048 rfl rfl (by decide)
    (by decide) (by decide) (by decide) (by decide)

end ReadoutCard
